import Mathlib

/-!
Shallow embedding of the EcoSphere risk-scoring engine of the TechSprint-App
repository: `server/services/riskCalculator.js` (risk scorer and forecast
deriver), the industry profile registry `server/data/industryProfiles.js`
(required by the risk calculator), and the TTL cache module.

JavaScript numbers are modelled as rationals (`ℚ`); `Math.round` is
`⌊x + 1/2⌋`; possibly-absent object fields are `Option`; the `a || b`
idiom on numbers treats `0` as falsy; optional chaining `a?.b` is `Option.bind`.
-/

namespace EcoSphere

/-- JavaScript `Math.round x` (rounds half toward positive infinity). -/
def jsRound (x : ℚ) : ℤ := ⌊x + 1/2⌋

/-- JavaScript `x || d` on a possibly-undefined number: both `undefined`
and a stored `0` are falsy and fall through to the default `d`. -/
def jsOrNum (o : Option ℚ) (d : ℚ) : ℚ :=
  match o with
  | none => d
  | some v => if v = 0 then d else v

/-- JavaScript `s || d` on a possibly-undefined string: `undefined` and the
empty string are falsy and fall through to the default `d`. -/
def jsOrStr (o : Option String) (d : String) : String :=
  match o with
  | none => d
  | some s => if s = "" then d else s

/-- The `if (list.length === 0) list.push(d)` pattern: a list that would be
empty is replaced by the one-element fallback. -/
def withFallback {α : Type} (l : List α) (d : α) : List α :=
  if l.isEmpty then [d] else l

/-- One entry of the normalized pollutant map, e.g. `pollutants.pm25`.
Only the `value` field is read by the risk calculator. -/
structure PollutantEntry where
  value : ℚ
deriving DecidableEq

/-- The `airQuality.pollutants` object; every key may be absent. -/
structure Pollutants where
  pm25 : Option PollutantEntry
  pm10 : Option PollutantEntry
  no2 : Option PollutantEntry
  o3 : Option PollutantEntry
  so2 : Option PollutantEntry
  co : Option PollutantEntry
deriving DecidableEq

/-- `pollutants.x?.value || 0`: a missing entry reads as `0` (a stored `0`
is falsy and also yields the default `0`, so the result is the same). -/
def pollutantVal (o : Option PollutantEntry) : ℚ :=
  match o with
  | none => 0
  | some e => e.value

/-- `pollutants.x?.value > c` with no defaulting: an absent entry compares
false (JS `undefined > c` is false). -/
def pollutantValGT (o : Option PollutantEntry) (c : ℚ) : Bool :=
  match o with
  | none => false
  | some e => decide (c < e.value)

/-- The `weather.current` record of the normalized weather snapshot. -/
structure CurrentWeather where
  temperature : Option ℚ
  humidity : Option ℚ
  windSpeed : Option ℚ
  visibility : Option ℚ
deriving DecidableEq

/-- The normalized weather object handed to `calculateOverallRisk`
(the `environmentalFactors` passthrough field is not modelled: the risk
calculator copies it unchanged and no claim refers to it). -/
structure Weather where
  current : Option CurrentWeather
deriving DecidableEq

/-- The `airQuality.aqi` object. -/
structure AqiInfo where
  value : Option ℚ
  category : Option String
deriving DecidableEq

/-- The normalized air-quality object handed to the risk calculator. -/
structure AirQuality where
  pollutants : Option Pollutants
  aqi : Option AqiInfo
deriving DecidableEq

/-- `weatherForecast.trends`; only `windTrend` is read by the engine. -/
structure Trends where
  windTrend : Option String
deriving DecidableEq

/-- The weather-forecast object handed to `generateForecast`. -/
structure WeatherForecast where
  trends : Option Trends
deriving DecidableEq

/-- One entry of `industryProfiles.js`. `vulnerabilityMultiplier` is
optional there (only some profiles define it). -/
structure IndustryProfile where
  primary_pollutants : List String
  long_term_risks : List String
  persistence_type : String
  main_pathways : List String
  health_focus : String
  preventive_focus : String
  vulnerabilityMultiplier : Option ℚ
deriving DecidableEq

/-- `pollutants` with every key absent: the `airQuality?.pollutants || {}`
default. -/
def emptyPollutants : Pollutants :=
  { pm25 := none, pm10 := none, no2 := none, o3 := none, so2 := none, co := none }

/-- Current weather with every field absent: the `weather?.current || {}`
default. -/
def emptyCurrent : CurrentWeather :=
  { temperature := none, humidity := none, windSpeed := none, visibility := none }

/-- `airQuality?.pollutants || {}` (an object is always truthy). -/
def pollutantsOf (airQuality : Option AirQuality) : Pollutants :=
  (airQuality.bind (·.pollutants)).getD emptyPollutants

/-- `weather?.current || {}` (an object is always truthy). -/
def currentOf (weather : Option Weather) : CurrentWeather :=
  (weather.bind (·.current)).getD emptyCurrent

/-- `airQuality?.aqi?.value` as an optional number. -/
def aqiValOf (airQuality : Option AirQuality) : Option ℚ :=
  (airQuality.bind (·.aqi)).bind (·.value)

/-! ## The industry profile registry (`server/data/industryProfiles.js`) -/

/-- Registry entry `"Generic Industrial Zone"`. -/
def genericIndustrialZone : IndustryProfile :=
  { primary_pollutants := ["PM2.5", "PM10", "NOx", "VOCs"]
    long_term_risks := ["General Air Quality Degradation", "Urban Heat Island Effect"]
    persistence_type := "Short to Medium"
    main_pathways := ["Air"]
    health_focus := "Respiratory Health"
    preventive_focus := "General emission reduction"
    vulnerabilityMultiplier := none }

/-- Registry entry `"Thermal Power Plant"`. -/
def thermalPowerPlant : IndustryProfile :=
  { primary_pollutants := ["PM2.5", "SO2", "NOx"]
    long_term_risks := ["Fly ash deposition", "Groundwater contamination", "Acid deposition"]
    persistence_type := "Medium to Long"
    main_pathways := ["Air", "Soil", "Water"]
    health_focus := "Respiratory & cardiovascular"
    preventive_focus := "Stack monitoring & ash management"
    vulnerabilityMultiplier := none }

/-- Registry entry `"Cement Manufacturing"`. -/
def cementManufacturing : IndustryProfile :=
  { primary_pollutants := ["PM10", "PM2.5", "NOx", "SO2"]
    long_term_risks := ["Soil alkalization", "Heavy metal accumulation"]
    persistence_type := "Medium"
    main_pathways := ["Air", "Soil"]
    health_focus := "Respiratory (Silicosis risk)"
    preventive_focus := "Fugitive dust control"
    vulnerabilityMultiplier := none }

/-- Registry entry `"Textile & Dyeing"`. -/
def textileAndDyeing : IndustryProfile :=
  { primary_pollutants := ["VOCs", "Suspended Solids", "Chlorine"]
    long_term_risks := ["Water table contamination", "Soil toxicity"]
    persistence_type := "Long"
    main_pathways := ["Water", "Soil"]
    health_focus := "Dermatological & internal toxicity"
    preventive_focus := "Effluent treatment & recycling"
    vulnerabilityMultiplier := none }

/-- Registry entry `"Chemical / Petrochemical"`. -/
def chemicalPetrochemical : IndustryProfile :=
  { primary_pollutants := ["VOCs", "PFAS", "Hazardous effluents"]
    long_term_risks := ["Chemical persistence", "Bioaccumulation"]
    persistence_type := "Very Long"
    main_pathways := ["Water", "Soil", "Air"]
    health_focus := "Chronic toxicity & endocrine disruption"
    preventive_focus := "Leak detection & containment"
    vulnerabilityMultiplier := none }

/-- Registry entry `"Steel & Metallurgy"`. -/
def steelMetallurgy : IndustryProfile :=
  { primary_pollutants := ["PM2.5", "Heavy Metals", "CO", "SO2"]
    long_term_risks := ["Heavy metal deposition", "Slag accumulation"]
    persistence_type := "Very Long"
    main_pathways := ["Air", "Soil"]
    health_focus := "Neurological & respiratory"
    preventive_focus := "Emission capture & waste recycling"
    vulnerabilityMultiplier := some 1.15 }

/-- Registry entry `"Agriculture"`. -/
def agriculture : IndustryProfile :=
  { primary_pollutants := ["Ammonia", "Pesticides", "Methane"]
    long_term_risks := ["Nitrate leaching", "Eutrophication"]
    persistence_type := "Medium"
    main_pathways := ["Water", "Soil", "Air"]
    health_focus := "Respiratory & waterborne exposure"
    preventive_focus := "Nutrient management & pesticide controls"
    vulnerabilityMultiplier := some 1.0 }

/-- Registry entry `"Fishing"`. -/
def fishing : IndustryProfile :=
  { primary_pollutants := ["Marine oil", "Diesel", "Plastic Waste"]
    long_term_risks := ["Marine contamination", "Bioaccumulation"]
    persistence_type := "Medium"
    main_pathways := ["Water"]
    health_focus := "Food chain contamination"
    preventive_focus := "Waste control & spill response"
    vulnerabilityMultiplier := some 0.9 }

/-- Registry entry `"Forestry"`. -/
def forestry : IndustryProfile :=
  { primary_pollutants := ["Diesel", "Herbicides"]
    long_term_risks := ["Habitat loss", "Soil erosion"]
    persistence_type := "Medium"
    main_pathways := ["Soil", "Air"]
    health_focus := "Ecosystem health"
    preventive_focus := "Sustainable harvesting and erosion control"
    vulnerabilityMultiplier := some 0.85 }

/-- Registry entry `"Mining"`. -/
def miningProfile : IndustryProfile :=
  { primary_pollutants := ["Mercury", "Lead", "Particulates"]
    long_term_risks := ["Heavy metal contamination", "Acid mine drainage"]
    persistence_type := "Very Long"
    main_pathways := ["Soil", "Water", "Air"]
    health_focus := "Neurological & chronic exposure"
    preventive_focus := "Tailings management & containment"
    vulnerabilityMultiplier := some 1.25 }

/-- Registry entry `"Oil Drilling"`. -/
def oilDrilling : IndustryProfile :=
  { primary_pollutants := ["Methane", "VOCs", "Hydrocarbons"]
    long_term_risks := ["Hydrocarbon contamination", "Climate contribution"]
    persistence_type := "Long"
    main_pathways := ["Air", "Water"]
    health_focus := "Respiratory & long-term toxicity"
    preventive_focus := "Spill prevention & gas reduction"
    vulnerabilityMultiplier := some 1.25 }

/-- Registry entry `"Automobile Manufacturing"`. -/
def automobileManufacturing : IndustryProfile :=
  { primary_pollutants := ["VOCs", "Solvents", "PM2.5"]
    long_term_risks := ["VOCs emissions", "Heavy metal residues"]
    persistence_type := "Medium"
    main_pathways := ["Air", "Soil"]
    health_focus := "Respiratory & dermal exposure"
    preventive_focus := "VOCs capture & paint process controls"
    vulnerabilityMultiplier := some 1.05 }

/-- Registry entry `"Textile Production"`. -/
def textileProduction : IndustryProfile :=
  { primary_pollutants := ["Dyes", "VOCs", "Suspended Solids"]
    long_term_risks := ["Water contamination", "Soil toxicity"]
    persistence_type := "Long"
    main_pathways := ["Water", "Soil"]
    health_focus := "Dermatological and systemic exposure"
    preventive_focus := "Effluent treatment and process optimization"
    vulnerabilityMultiplier := some 1.0 }

/-- Registry entry `"Construction"`. -/
def construction : IndustryProfile :=
  { primary_pollutants := ["PM10", "PM2.5", "NOx"]
    long_term_risks := ["Dust deposition", "Soil disturbance"]
    persistence_type := "Short"
    main_pathways := ["Air", "Soil"]
    health_focus := "Respiratory impacts"
    preventive_focus := "Dust suppression and site controls"
    vulnerabilityMultiplier := some 1.0 }

/-- Registry entry `"Food Processing"`. -/
def foodProcessing : IndustryProfile :=
  { primary_pollutants := ["Organic waste", "Odors", "PM"]
    long_term_risks := ["Localized contamination", "Effluent loading"]
    persistence_type := "Short"
    main_pathways := ["Water", "Soil"]
    health_focus := "Food safety and water quality"
    preventive_focus := "Wastewater treatment and hygienic controls"
    vulnerabilityMultiplier := some 0.9 }

/-- The `INDUSTRY_PROFILES` object, as an association list keyed by the
exact industry name (own keys of the object literal, in source order). -/
def INDUSTRY_PROFILES : List (String × IndustryProfile) :=
  [("Generic Industrial Zone", genericIndustrialZone),
   ("Thermal Power Plant", thermalPowerPlant),
   ("Cement Manufacturing", cementManufacturing),
   ("Textile & Dyeing", textileAndDyeing),
   ("Chemical / Petrochemical", chemicalPetrochemical),
   ("Steel & Metallurgy", steelMetallurgy),
   ("Agriculture", agriculture),
   ("Fishing", fishing),
   ("Forestry", forestry),
   ("Mining", miningProfile),
   ("Oil Drilling", oilDrilling),
   ("Automobile Manufacturing", automobileManufacturing),
   ("Textile Production", textileProduction),
   ("Construction", construction),
   ("Food Processing", foodProcessing)]

/-- `INDUSTRY_PROFILES[industry]`: exact-name lookup, `undefined` when the
key is absent. -/
def lookupProfile (name : String) : Option IndustryProfile :=
  INDUSTRY_PROFILES.lookup name

/-- `INDUSTRY_PROFILES[industry] || INDUSTRY_PROFILES['Generic Industrial Zone']`:
a present profile object is always truthy, so an unknown name falls back to
the generic profile. This is the total model the scorer embedding uses; it
is faithful exactly for industry names that are not inherited
`Object.prototype` properties — for those names the real bracket access
finds a truthy non-profile and the program throws instead of producing an
assessment (see `bracketLookup` and `resolveProfileJs`). -/
def resolveProfile (name : String) : IndustryProfile :=
  (lookupProfile name).getD genericIndustrialZone

/-- The property names every plain object literal inherits from
`Object.prototype`; bracket access on the registry finds these even though
they are not own keys of the object literal. -/
def objectPrototypeKeys : List String :=
  ["constructor", "hasOwnProperty", "isPrototypeOf", "propertyIsEnumerable",
   "toLocaleString", "toString", "valueOf", "__defineGetter__",
   "__defineSetter__", "__lookupGetter__", "__lookupSetter__", "__proto__"]

/-- What `INDUSTRY_PROFILES[industry]` actually evaluates to. -/
inductive BracketValue where
  /-- An own key of the object literal: its profile. -/
  | profile (p : IndustryProfile)
  /-- A property inherited from `Object.prototype`: a truthy non-profile
  value (a function, or `Object.prototype` itself for `"__proto__"`). -/
  | inheritedNonProfile
  /-- Any other name: `undefined`. -/
  | undef
deriving DecidableEq

/-- JS bracket access `INDUSTRY_PROFILES[industry]` with the prototype
chain: own keys win, then inherited `Object.prototype` properties, then
`undefined`. -/
def bracketLookup (name : String) : BracketValue :=
  match lookupProfile name with
  | some p => BracketValue.profile p
  | none =>
    if objectPrototypeKeys.contains name then BracketValue.inheritedNonProfile
    else BracketValue.undef

/-- Profile resolution as the program really behaves, i.e.
`INDUSTRY_PROFILES[industry] || INDUSTRY_PROFILES['Generic Industrial Zone']`
followed by the scorers' first access to `profile.primary_pollutants`: an
own key resolves to its profile and `undefined` falls back to the generic
profile, but an inherited non-profile is truthy, skips the `||` fallback,
and the subsequent `profile.primary_pollutants.includes(...)` throws. -/
def resolveProfileJs (name : String) : Except String IndustryProfile :=
  match bracketLookup name with
  | BracketValue.profile p => Except.ok p
  | BracketValue.inheritedNonProfile =>
    Except.error "TypeError: profile.primary_pollutants is undefined"
  | BracketValue.undef => Except.ok genericIndustrialZone

/-! ## Helper classifiers of `riskCalculator.js` -/

/-- `getRiskLevel(score)`: the fixed-threshold Low/Moderate/High classifier. -/
def getRiskLevel (score : ℚ) : String :=
  if score ≤ 33 then "Low"
  else if score ≤ 66 then "Moderate"
  else "High"

/-- `getRiskColor(level)` (unknown levels fall back to gray). -/
def getRiskColor (level : String) : String :=
  if level = "Low" then "#22c55e"
  else if level = "Moderate" then "#f59e0b"
  else if level = "High" then "#ef4444"
  else "#6b7280"

/-- `getAQICategory(aqi)`. -/
def getAQICategory (aqi : ℚ) : String :=
  if aqi ≤ 50 then "Good"
  else if aqi ≤ 100 then "Satisfactory"
  else if aqi ≤ 200 then "Moderate"
  else if aqi ≤ 300 then "Poor"
  else if aqi ≤ 400 then "Very Poor"
  else "Severe"

/-- `getHealthConcerns(score)`. -/
def getHealthConcerns (score : ℚ) : List String :=
  if score ≤ 33 then ["No significant concerns", "Standard precautions sufficient"]
  else if score ≤ 66 then
    ["Sensitive individuals may be affected", "Respiratory symptoms possible for some"]
  else
    ["General population may experience effects", "Outdoor activities should be limited",
     "Protective measures recommended"]

/-- `getEcosystemConcerns(pollutants)`. -/
def getEcosystemConcerns (pollutants : Pollutants) : List String :=
  withFallback
    ((if pollutantValGT pollutants.so2 20 then ["Acid deposition potential"] else []) ++
     (if pollutantValGT pollutants.o3 60 then ["Vegetation ozone damage"] else []) ++
     (if pollutantValGT pollutants.no2 30 then ["Nitrogen loading in ecosystems"] else []))
    "No significant ecosystem concerns"

/-- `getSocioEconomicDescription(score)`. -/
def getSocioEconomicDescription (score : ℚ) : String :=
  if score ≤ 33 then "Environmental conditions support normal economic activity."
  else if score ≤ 66 then "Some productivity impacts possible. Planning adjustments may be needed."
  else "Significant economic implications. Proactive measures recommended."

/-- `getSocioEconomicConcerns(score)`. -/
def getSocioEconomicConcerns (score : ℚ) : List String :=
  if score ≤ 33 then ["Normal operations", "Standard planning"]
  else if score ≤ 66 then ["Minor productivity considerations", "Community health awareness"]
  else
    ["Potential productivity impacts", "Healthcare demand increase",
     "Regulatory attention possible"]

/-! ## The four impact scorers -/

/-- The `totalWeight` local of `calculateHealthImpact`: base weights
`{pm25:40, pm10:25, no2:20, o3:15}` with a `+10` pm25 bonus when the profile
lists `"PM2.5"` and a `+10` no2 bonus when it lists `"NOx"`. -/
def healthTotalWeight (profile : IndustryProfile) : ℚ :=
  (if profile.primary_pollutants.contains "PM2.5" then (40 : ℚ) + 10 else 40) + 25 +
    (if profile.primary_pollutants.contains "NOx" then (20 : ℚ) + 10 else 20) + 15

/-- The unrounded `score` local of `calculateHealthImpact`. -/
def healthScoreRaw (p : Pollutants) (profile : IndustryProfile) : ℚ :=
  min 100
    (pollutantVal p.pm25 / 15 *
        ((if profile.primary_pollutants.contains "PM2.5" then (40 : ℚ) + 10 else 40) /
          healthTotalWeight profile * 100) +
      pollutantVal p.pm10 / 45 * (25 / healthTotalWeight profile * 100) +
      pollutantVal p.no2 / 25 *
        ((if profile.primary_pollutants.contains "NOx" then (20 : ℚ) + 10 else 20) /
          healthTotalWeight profile * 100) +
      pollutantVal p.o3 / 100 * (15 / healthTotalWeight profile * 100))

/-- Result record of `calculateHealthImpact`. -/
structure HealthImpact where
  score : ℤ
  level : String
  color : String
  description : String
  primaryPollutant : String
  concerns : List String
deriving DecidableEq

/-- `calculateHealthImpact(pollutants, profile)`. -/
def calculateHealthImpact (p : Pollutants) (profile : IndustryProfile) : HealthImpact :=
  { score := jsRound (healthScoreRaw p profile)
    level := getRiskLevel (healthScoreRaw p profile)
    color := getRiskColor (getRiskLevel (healthScoreRaw p profile))
    description := profile.health_focus ++ " risks assessed based on current levels."
    primaryPollutant :=
      if pollutantVal p.pm10 * 0.4 < pollutantVal p.pm25 then "PM2.5" else "PM10"
    concerns := getHealthConcerns (healthScoreRaw p profile) }

/-- The unrounded `score` local of `calculateEcosystemImpact`. -/
def ecosystemScoreRaw (p : Pollutants) (weather : CurrentWeather) : ℚ :=
  min 100
    (pollutantVal p.no2 / 25 * 30 + pollutantVal p.so2 / 40 * 35 +
      pollutantVal p.o3 / 100 * 25 +
      (if jsOrNum weather.humidity 50 < 30 then 10 else 0))

/-- Result record of `calculateEcosystemImpact`. -/
structure EcosystemImpact where
  score : ℤ
  level : String
  color : String
  description : String
  concerns : List String
deriving DecidableEq

/-- `calculateEcosystemImpact(pollutants, weather, profile)`. -/
def calculateEcosystemImpact (p : Pollutants) (weather : CurrentWeather)
    (profile : IndustryProfile) : EcosystemImpact :=
  { score := jsRound (ecosystemScoreRaw p weather)
    level := getRiskLevel (ecosystemScoreRaw p weather)
    color := getRiskColor (getRiskLevel (ecosystemScoreRaw p weather))
    description :=
      String.intercalate ", " profile.main_pathways ++
        " pathways analyzed for ecosystem stress."
    concerns := getEcosystemConcerns p }

/-- The `dispersionFactor` local of `calculateEnvironmentImpact`. -/
def dispersionFactor (windSpeed : ℚ) : ℚ :=
  if 15 < windSpeed then 0.7 else if 8 < windSpeed then 0.85 else 1.0

/-- The unrounded `score` local of `calculateEnvironmentImpact`. -/
def environmentScoreRaw (p : Pollutants) (weather : CurrentWeather) : ℚ :=
  min 100
    (pollutantVal p.pm25 / 15 * 35 * dispersionFactor (jsOrNum weather.windSpeed 10) +
      pollutantVal p.pm10 / 45 * 30 * dispersionFactor (jsOrNum weather.windSpeed 10) +
      (10 - min (jsOrNum weather.visibility 10) 10) * 3.5)

/-- The `components` sub-record of the environment impact. -/
structure EnvComponents where
  air : String
  water : String
  soil : String
deriving DecidableEq

/-- Result record of `calculateEnvironmentImpact`. -/
structure EnvironmentImpact where
  score : ℤ
  level : String
  color : String
  description : String
  components : EnvComponents
deriving DecidableEq

/-- `calculateEnvironmentImpact(pollutants, weather, profile)`. -/
def calculateEnvironmentImpact (p : Pollutants) (weather : CurrentWeather)
    (profile : IndustryProfile) : EnvironmentImpact :=
  { score := jsRound (environmentScoreRaw p weather)
    level := getRiskLevel (environmentScoreRaw p weather)
    color := getRiskColor (getRiskLevel (environmentScoreRaw p weather))
    description :=
      "Risk analysis for " ++ String.intercalate "/" profile.main_pathways ++
        " environments."
    components :=
      { air := getRiskLevel ((pollutantVal p.pm25 / 15 + pollutantVal p.pm10 / 45) * 25)
        water := if profile.main_pathways.contains "Water" then "Monitoring" else "Stable"
        soil := if profile.main_pathways.contains "Soil" then "Attention" else "Stable" } }

/-- The unrounded `score` local of `calculateSocioEconomicImpact`
(`healthScore` is the already-rounded `healthImpact.score`). -/
def socioScoreRaw (p : Pollutants) (healthScore : ℤ) : ℚ :=
  min 100
    ((healthScore : ℚ) * 0.5 + pollutantVal p.pm25 / 15 * 25 +
      (if 100 < pollutantVal p.pm25 then 15 else 0))

/-- Result record of `calculateSocioEconomicImpact`. -/
structure SocioImpact where
  score : ℤ
  level : String
  color : String
  description : String
  concerns : List String
deriving DecidableEq

/-- `calculateSocioEconomicImpact(pollutants, healthImpact, profile)`. -/
def calculateSocioEconomicImpact (p : Pollutants) (healthImpact : HealthImpact)
    (_profile : IndustryProfile) : SocioImpact :=
  { score := jsRound (socioScoreRaw p healthImpact.score)
    level := getRiskLevel (socioScoreRaw p healthImpact.score)
    color := getRiskColor (getRiskLevel (socioScoreRaw p healthImpact.score))
    description := getSocioEconomicDescription (socioScoreRaw p healthImpact.score)
    concerns := getSocioEconomicConcerns (socioScoreRaw p healthImpact.score) }

/-! ## Current-conditions assessment (`calculateOverallRisk`) -/

/-- `identifyPrimaryConcerns(pollutants, weather, profile)`. The caller
passes the already-unwrapped current-weather record as `weather`, yet the
function reads `weather.current?.temperature`; that record carries no
`current` property, so the optional chain yields `undefined` and the
temperature comparison is false for every input. -/
def identifyPrimaryConcerns (p : Pollutants) (_weather : CurrentWeather)
    (profile : IndustryProfile) : List String :=
  let nestedCurrent : Option CurrentWeather := none
  let tempAbove30 : Bool :=
    match nestedCurrent with
    | some c =>
      match c.temperature with
      | some t => decide (30 < t)
      | none => false
    | none => false
  withFallback
    ((if 100 < pollutantVal p.pm25 then
        (if profile.primary_pollutants.contains "PM2.5" then
          ["High PM2.5 levels combined with combustion-based industry increase respiratory exposure risk."]
        else ["Elevated ambient PM2.5 requires monitoring."])
      else []) ++
     (if profile.primary_pollutants.contains "VOCs" && tempAbove30 then
        ["High temperatures may increase VOC volatilization risk."]
      else []))
    "Routine environmental monitoring active."

/-- The `overallScore` local of `calculateOverallRisk`: the weighted sum of
the four already-rounded impact scores. -/
def overallScoreRaw (airQuality : Option AirQuality) (weather : Option Weather)
    (industry : String) : ℚ :=
  ((calculateHealthImpact (pollutantsOf airQuality) (resolveProfile industry)).score : ℚ)
      * 0.35 +
    ((calculateEcosystemImpact (pollutantsOf airQuality) (currentOf weather)
        (resolveProfile industry)).score : ℚ) * 0.20 +
    ((calculateEnvironmentImpact (pollutantsOf airQuality) (currentOf weather)
        (resolveProfile industry)).score : ℚ) * 0.25 +
    ((calculateSocioEconomicImpact (pollutantsOf airQuality)
        (calculateHealthImpact (pollutantsOf airQuality) (resolveProfile industry))
        (resolveProfile industry)).score : ℚ) * 0.20

/-- The `overallRisk` sub-record of the current-conditions assessment. -/
structure OverallRisk where
  score : ℤ
  level : String
  aqi : ℚ
  category : String
  color : String
deriving DecidableEq

/-- The `impacts` sub-record of the current-conditions assessment. -/
structure Impacts where
  humanHealth : HealthImpact
  ecosystems : EcosystemImpact
  environment : EnvironmentImpact
  socioEconomic : SocioImpact
deriving DecidableEq

/-- The value returned by `calculateOverallRisk` (the `environmentalFactors`
passthrough of the weather input is not modelled). -/
structure RiskAssessment where
  overallRisk : OverallRisk
  impacts : Impacts
  primaryConcerns : List String
  industryContext : IndustryProfile
deriving DecidableEq

/-- `calculateOverallRisk(airQuality, weather, industry)`. -/
def calculateOverallRisk (airQuality : Option AirQuality) (weather : Option Weather)
    (industry : String) : RiskAssessment :=
  let pollutants := pollutantsOf airQuality
  let current := currentOf weather
  let profile := resolveProfile industry
  let healthImpact := calculateHealthImpact pollutants profile
  let ecosystemImpact := calculateEcosystemImpact pollutants current profile
  let environmentImpact := calculateEnvironmentImpact pollutants current profile
  let socioEconomicImpact := calculateSocioEconomicImpact pollutants healthImpact profile
  let overallScore := overallScoreRaw airQuality weather industry
  let riskLevel := getRiskLevel overallScore
  -- `airQuality?.aqi?.value || Math.round(overallScore * 5)` (0 is falsy)
  let aqi : ℚ := jsOrNum (aqiValOf airQuality) ((jsRound (overallScore * 5) : ℤ) : ℚ)
  { overallRisk :=
      { score := jsRound overallScore
        level := riskLevel
        aqi := aqi
        category := jsOrStr ((airQuality.bind (·.aqi)).bind (·.category)) (getAQICategory aqi)
        color := getRiskColor riskLevel }
    impacts :=
      { humanHealth := healthImpact
        ecosystems := ecosystemImpact
        environment := environmentImpact
        socioEconomic := socioEconomicImpact }
    primaryConcerns := identifyPrimaryConcerns pollutants current profile
    industryContext := profile }

/-! ## Forecast derivation (`generateForecast`) -/

/-- One `longTerm` entry (`chemicalAccumulation` etc.). -/
structure LongTermEntry where
  level : String
  description : String
  timeframe : String
deriving DecidableEq

/-- The `longTerm` record of the forecast. -/
structure LongTerm where
  chemicalAccumulation : LongTermEntry
  groundwaterRisk : LongTermEntry
  soilContamination : LongTermEntry
deriving DecidableEq

/-- `generateLongTermForecast(airQuality, profile)`. The `pm25` local of the
source (`airQuality?.pollutants?.pm25?.value || 100`) is computed but never
read, so it is not modelled. The accumulation classifier tests only the
persistence strings `'Very Long'`, `'Long'` and `'Medium'`. -/
def generateLongTermForecast (airQuality : Option AirQuality)
    (profile : IndustryProfile) : LongTerm :=
  let aqi := jsOrNum (aqiValOf airQuality) 150
  let accumulationLevel :=
    if profile.persistence_type = "Very Long" then "High"
    else if profile.persistence_type = "Long" ∨
        (profile.persistence_type = "Medium" ∧ 200 < aqi) then "Moderate"
    else "Low"
  { chemicalAccumulation :=
      { level := accumulationLevel
        description :=
          "Potential for accumulation of " ++
            String.intercalate ", " profile.primary_pollutants ++ " based on " ++
            profile.persistence_type.toLower ++ " persistence type."
        timeframe := "Years to decades" }
    groundwaterRisk :=
      { level := if profile.main_pathways.contains "Water" then "Moderate" else "Low"
        description :=
          if profile.main_pathways.contains "Water" then
            "Groundwater contamination risk requires monitoring due to industry effluents."
          else "Lower risk pathway for this industry type."
        timeframe := "Decades" }
    soilContamination :=
      { level := if profile.main_pathways.contains "Soil" then "Moderate" else "Low"
        description :=
          if profile.main_pathways.contains "Soil" then
            "Soil loading possible from atmospheric deposition and operations."
          else "Indirect risk via atmospheric deposition."
        timeframe := "Years to decades" } }

/-- One entry of `riskDrivers`. -/
structure RiskDriver where
  factor : String
  severity : String
  description : String
  persistence : String
deriving DecidableEq

/-- The `severity` computed per primary pollutant inside
`identifyRiskDrivers` (presence of the matching measurement is the JS
truthiness of the entry object; non-measured pollutants get `"Potential"`). -/
def driverSeverity (pollutants : Pollutants) (pollutant : String) : String :=
  if pollutant = "PM2.5" ∧ pollutants.pm25.isSome then
    (if pollutantValGT pollutants.pm25 60 then "High" else "Moderate")
  else if pollutant = "PM10" ∧ pollutants.pm10.isSome then
    (if pollutantValGT pollutants.pm10 100 then "High" else "Moderate")
  else if pollutant = "NOx" ∧ pollutants.no2.isSome then
    (if pollutantValGT pollutants.no2 40 then "High" else "Moderate")
  else if pollutant = "SO2" ∧ pollutants.so2.isSome then
    (if pollutantValGT pollutants.so2 40 then "High" else "Moderate")
  else "Potential"

/-- `identifyRiskDrivers(airQuality, profile)`. -/
def identifyRiskDrivers (airQuality : Option AirQuality)
    (profile : IndustryProfile) : List RiskDriver :=
  let pollutants := pollutantsOf airQuality
  let base :=
    profile.primary_pollutants.map fun pollutant =>
      { factor := pollutant
        severity := driverSeverity pollutants pollutant
        description := "Primary pollutant for this sector."
        persistence := profile.persistence_type }
  if profile.persistence_type = "Long" ∨ profile.persistence_type = "Very Long" then
    base ++
      [{ factor := "Chemical Persistence"
         severity := "High"
         description :=
           -- `profile.primary_pollutants[0]` interpolates as "undefined"
           -- for an empty list (no registry profile is empty)
           (profile.primary_pollutants.head?.getD "undefined") ++
             " associated with this industry resist degradation and can accumulate in " ++
             String.intercalate " and " profile.main_pathways ++ "."
         persistence := profile.persistence_type }]
  else base

/-- One entry of `earlyWarnings`. -/
structure Warning where
  type : String
  severity : String
  message : String
  icon : String
deriving DecidableEq

/-- `generateEarlyWarnings(airQuality, weatherForecast, profile)`. -/
def generateEarlyWarnings (airQuality : Option AirQuality)
    (weatherForecast : Option WeatherForecast) (profile : IndustryProfile) :
    List Warning :=
  let aqi := jsOrNum (aqiValOf airQuality) 100
  let windTrend : Option String := (weatherForecast.bind (·.trends)).bind (·.windTrend)
  withFallback
    (((if 200 < aqi then
        [{ type := "air_quality", severity := "attention"
           message := "Air quality critically elevated. Immediate reduction in dust-generating activities advised."
           icon := "🌫️" }]
      else []) ++
     (if windTrend = some "decreasing" ∧ profile.primary_pollutants.contains "PM2.5" then
        [{ type := "weather", severity := "attention"
           message := "Dispersion Limited: Stagnant conditions likely to trap industrial emissions."
           icon := "⛔" }]
      else []) ++
     (if profile.persistence_type = "Very Long" ∨ profile.persistence_type = "Long" then
        [{ type := "accumulation", severity := "attention"
           message := "Long-Term Accumulation Likely: Persistent contaminants require strict containment."
           icon := "⏳" }]
      else if 150 < aqi then
        [{ type := "accumulation", severity := "info"
           message := "Persistent Risk Detected: Sustained high levels may lead to environmental loading."
           icon := "🚨" }]
      else [])) : List Warning)
    { type := "status", severity := "normal"
      message := "Conditions within manageable limits.", icon := "✓" }

/-- One entry of `preventiveActions`. -/
structure Action where
  priority : ℕ
  action : String
  description : String
  timeframe : String
  scalability : String
deriving DecidableEq

/-- `generatePreventiveActions(airQuality, weatherForecast, profile)`. -/
def generatePreventiveActions (_airQuality : Option AirQuality)
    (_weatherForecast : Option WeatherForecast) (profile : IndustryProfile) :
    List Action :=
  let actions : List Action :=
   [{ priority := 1, action := "Enhanced Environmental Monitoring"
      description :=
        "Increase monitoring frequency for " ++
          String.intercalate ", " profile.primary_pollutants ++ "."
      timeframe := "Immediate", scalability := "All scales" }] ++
   (if profile.preventive_focus ≠ "" then
      [{ priority := 2, action := profile.preventive_focus
         description := "Implement specific control measures aligned with industry best practices."
         timeframe := "Ongoing", scalability := "Operational" }]
    else []) ++
   (if profile.main_pathways.contains "Water" then
      [{ priority := 3, action := "Effluent & Groundwater Management"
         description := "Monitor groundwater near disposal zones and strengthen containment systems."
         timeframe := "Continuous", scalability := "Site-specific" }]
    else []) ++
   (if profile.persistence_type = "Very Long" then
      [{ priority := 4, action := "Review Persistent Waste Handling"
         description := "Audit disposal practices for persistent chemicals to prevent long-term bioaccumulation."
         timeframe := "Quarterly", scalability := "Medium to Large" }]
    else
      [{ priority := 4, action := "Stakeholder Communication"
         description := "Inform workforce about current conditions and necessary precautions."
         timeframe := "Daily", scalability := "All scales" }])
  actions.take 4

/-- `getPrimaryConcern(airQuality, profile)`. -/
def getPrimaryConcern (airQuality : Option AirQuality)
    (profile : IndustryProfile) : String :=
  let pm25 := jsOrNum (((airQuality.bind (·.pollutants)).bind (·.pm25)).map (·.value)) 0
  if 150 < pm25 then "High Particulate Matter (" ++ profile.health_focus ++ ")"
  else "Routine " ++ (profile.primary_pollutants.head?.getD "undefined") ++ " monitoring"

/-- The `baseRiskScore` local of `generateForecast`:
`airQuality?.aqi?.value ? Math.min(100, value / 3) : 50` — JS truthiness,
so a supplied AQI value of `0` takes the `50` default. -/
def forecastBaseRaw (airQuality : Option AirQuality) : ℚ :=
  match aqiValOf airQuality with
  | some v => if v = 0 then 50 else min 100 (v / 3)
  | none => 50

/-- The `multiplier` local of `generateForecast`
(`profile.vulnerabilityMultiplier || 1.0`). -/
def forecastMultiplier (profile : IndustryProfile) : ℚ :=
  jsOrNum profile.vulnerabilityMultiplier 1

/-- The `adjustedRiskScore` local of `generateForecast`. -/
def forecastAdjustedRaw (airQuality : Option AirQuality)
    (profile : IndustryProfile) : ℚ :=
  min 100 (forecastBaseRaw airQuality * forecastMultiplier profile)

/-- The `overallRisk` sub-record of the forecast. -/
structure ForecastOverallRisk where
  level : String
  score : ℤ
  rawScore : ℤ
  multiplier : ℚ
  primaryConcern : String
  timeHorizon : String
deriving DecidableEq

/-- The value returned by `generateForecast`. -/
structure ForecastAssessment where
  overallRisk : ForecastOverallRisk
  shortTerm : List String
  longTerm : LongTerm
  riskDrivers : List RiskDriver
  earlyWarnings : List Warning
  preventiveActions : List Action
  industryContext : IndustryProfile
deriving DecidableEq

/-- `generateShortTermForecast`: numeric predictions were removed, the
function returns an empty list for every input. -/
def generateShortTermForecast (_airQuality : Option AirQuality)
    (_weatherForecast : Option WeatherForecast) (_profile : IndustryProfile) :
    List String := []

/-- `generateForecast(airQuality, weatherForecast, industry)`. -/
def generateForecast (airQuality : Option AirQuality)
    (weatherForecast : Option WeatherForecast) (industry : String) :
    ForecastAssessment :=
  let profile := resolveProfile industry
  { overallRisk :=
      { level := getRiskLevel (forecastAdjustedRaw airQuality profile)
        score := jsRound (forecastAdjustedRaw airQuality profile)
        rawScore := jsRound (forecastBaseRaw airQuality)
        multiplier := forecastMultiplier profile
        primaryConcern := getPrimaryConcern airQuality profile
        timeHorizon := "Short-term focus recommended" }
    shortTerm := generateShortTermForecast airQuality weatherForecast profile
    longTerm := generateLongTermForecast airQuality profile
    riskDrivers := identifyRiskDrivers airQuality profile
    earlyWarnings := generateEarlyWarnings airQuality weatherForecast profile
    preventiveActions := generatePreventiveActions airQuality weatherForecast profile
    industryContext := profile }

/-! ## The TTL cache module

The backing `Map` is modelled as a partial map from keys to
`(value, expires)` entries; `Date.now()` is an explicit integer-millisecond
argument. `get` both returns the looked-up value and (on expiry) deletes the
entry, so it returns the possibly-updated map as well. -/

/-- The cache state: each key maps to an entry `(value, expires)` or nothing. -/
def Cache (α : Type) : Type := String → Option (α × ℤ)

/-- `set(key, value, ttl)` at current time `now`: stores
`{value, expires: now + ttl}`, replacing any previous entry for `key`. -/
def cacheSet {α : Type} (c : Cache α) (key : String) (value : α)
    (now ttl : ℤ) : Cache α :=
  fun k => if k = key then some (value, now + ttl) else c k

/-- `get(key)` at current time `now`: `null` if absent; if
`now > entry.expires` the entry is deleted and `null` returned; otherwise
the stored value is returned and the map unchanged. -/
def cacheGet {α : Type} (c : Cache α) (key : String) (now : ℤ) :
    Option α × Cache α :=
  match c key with
  | none => (none, c)
  | some (v, expires) =>
    if expires < now then (none, fun k => if k = key then none else c k)
    else (some v, c)

/-- The empty cache (the module-level `new Map()`). -/
def emptyCache (α : Type) : Cache α := fun _ => none

/-! ## General lemmas about the embedding -/

attribute [local semireducible] Rat.mul Rat.add Rat.sub Rat.inv Rat.ofScientific

lemma jsRound_nonneg {x : ℚ} (h : 0 ≤ x) : 0 ≤ jsRound x := by
  unfold jsRound
  exact Int.le_floor.mpr (by push_cast; linarith)

lemma jsRound_le_100 {x : ℚ} (h : x ≤ 100) : jsRound x ≤ 100 := by
  unfold jsRound
  have h2 : (x + 1/2 : ℚ) < ((101 : ℤ) : ℚ) := by push_cast; linarith
  have h3 := Int.floor_lt.mpr h2
  omega

lemma withFallback_ne_nil {α : Type} (l : List α) (d : α) : withFallback l d ≠ [] := by
  unfold withFallback
  split_ifs with h
  · simp
  · simpa [List.isEmpty_iff] using h

/-- All pollutant readings taken by the scorers are nonnegative
(concentrations; absent entries read as `0`). -/
abbrev PollutantsNonneg (p : Pollutants) : Prop :=
  0 ≤ pollutantVal p.pm25 ∧ 0 ≤ pollutantVal p.pm10 ∧ 0 ≤ pollutantVal p.no2 ∧
    0 ≤ pollutantVal p.o3 ∧ 0 ≤ pollutantVal p.so2

lemma healthScoreRaw_le (p : Pollutants) (profile : IndustryProfile) :
    healthScoreRaw p profile ≤ 100 :=
  min_le_left _ _

lemma healthScoreRaw_nonneg (p : Pollutants) (profile : IndustryProfile)
    (h25 : 0 ≤ pollutantVal p.pm25) (h10 : 0 ≤ pollutantVal p.pm10)
    (hn2 : 0 ≤ pollutantVal p.no2) (ho3 : 0 ≤ pollutantVal p.o3) :
    0 ≤ healthScoreRaw p profile := by
  unfold healthScoreRaw healthTotalWeight
  split_ifs <;> exact le_min (by norm_num) (by nlinarith)

lemma ecosystemScoreRaw_le (p : Pollutants) (weather : CurrentWeather) :
    ecosystemScoreRaw p weather ≤ 100 :=
  min_le_left _ _

lemma ecosystemScoreRaw_nonneg (p : Pollutants) (weather : CurrentWeather)
    (hn2 : 0 ≤ pollutantVal p.no2) (ho3 : 0 ≤ pollutantVal p.o3)
    (hso2 : 0 ≤ pollutantVal p.so2) :
    0 ≤ ecosystemScoreRaw p weather := by
  unfold ecosystemScoreRaw
  split_ifs <;> exact le_min (by norm_num) (by nlinarith)

lemma environmentScoreRaw_le (p : Pollutants) (weather : CurrentWeather) :
    environmentScoreRaw p weather ≤ 100 :=
  min_le_left _ _

lemma environmentScoreRaw_nonneg (p : Pollutants) (weather : CurrentWeather)
    (h25 : 0 ≤ pollutantVal p.pm25) (h10 : 0 ≤ pollutantVal p.pm10) :
    0 ≤ environmentScoreRaw p weather := by
  unfold environmentScoreRaw dispersionFactor
  have hv := min_le_right (jsOrNum weather.visibility 10) 10
  split_ifs <;> exact le_min (by norm_num) (by nlinarith)

lemma socioScoreRaw_le (p : Pollutants) (healthScore : ℤ) :
    socioScoreRaw p healthScore ≤ 100 :=
  min_le_left _ _

lemma socioScoreRaw_nonneg (p : Pollutants) (healthScore : ℤ)
    (h25 : 0 ≤ pollutantVal p.pm25) (hh : 0 ≤ healthScore) :
    0 ≤ socioScoreRaw p healthScore := by
  unfold socioScoreRaw
  have hhq : (0 : ℚ) ≤ (healthScore : ℚ) := by exact_mod_cast hh
  split_ifs <;> exact le_min (by norm_num) (by nlinarith)

/-- Projection lemmas tying `calculateOverallRisk` to its building blocks. -/
lemma cor_humanHealth (aq : Option AirQuality) (w : Option Weather) (ind : String) :
    (calculateOverallRisk aq w ind).impacts.humanHealth =
      calculateHealthImpact (pollutantsOf aq) (resolveProfile ind) := rfl

lemma cor_ecosystems (aq : Option AirQuality) (w : Option Weather) (ind : String) :
    (calculateOverallRisk aq w ind).impacts.ecosystems =
      calculateEcosystemImpact (pollutantsOf aq) (currentOf w) (resolveProfile ind) := rfl

lemma cor_environment (aq : Option AirQuality) (w : Option Weather) (ind : String) :
    (calculateOverallRisk aq w ind).impacts.environment =
      calculateEnvironmentImpact (pollutantsOf aq) (currentOf w) (resolveProfile ind) := rfl

lemma cor_socioEconomic (aq : Option AirQuality) (w : Option Weather) (ind : String) :
    (calculateOverallRisk aq w ind).impacts.socioEconomic =
      calculateSocioEconomicImpact (pollutantsOf aq)
        (calculateHealthImpact (pollutantsOf aq) (resolveProfile ind))
        (resolveProfile ind) := rfl

lemma cor_overall_score (aq : Option AirQuality) (w : Option Weather) (ind : String) :
    (calculateOverallRisk aq w ind).overallRisk.score =
      jsRound (overallScoreRaw aq w ind) := rfl

lemma cor_overall_level (aq : Option AirQuality) (w : Option Weather) (ind : String) :
    (calculateOverallRisk aq w ind).overallRisk.level =
      getRiskLevel (overallScoreRaw aq w ind) := rfl

lemma cor_overall_aqi (aq : Option AirQuality) (w : Option Weather) (ind : String) :
    (calculateOverallRisk aq w ind).overallRisk.aqi =
      jsOrNum (aqiValOf aq) ((jsRound (overallScoreRaw aq w ind * 5) : ℤ) : ℚ) := rfl

lemma overallScoreRaw_bounds (aq : Option AirQuality) (w : Option Weather)
    (ind : String) (h : PollutantsNonneg (pollutantsOf aq)) :
    0 ≤ overallScoreRaw aq w ind ∧ overallScoreRaw aq w ind ≤ 100 := by
  obtain ⟨h25, h10, hn2, ho3, hso2⟩ := h
  have hh1 : 0 ≤ (calculateHealthImpact (pollutantsOf aq) (resolveProfile ind)).score :=
    jsRound_nonneg (healthScoreRaw_nonneg _ _ h25 h10 hn2 ho3)
  have hh2 : (calculateHealthImpact (pollutantsOf aq) (resolveProfile ind)).score ≤ 100 :=
    jsRound_le_100 (healthScoreRaw_le _ _)
  have he1 : 0 ≤ (calculateEcosystemImpact (pollutantsOf aq) (currentOf w)
      (resolveProfile ind)).score :=
    jsRound_nonneg (ecosystemScoreRaw_nonneg _ _ hn2 ho3 hso2)
  have he2 : (calculateEcosystemImpact (pollutantsOf aq) (currentOf w)
      (resolveProfile ind)).score ≤ 100 :=
    jsRound_le_100 (ecosystemScoreRaw_le _ _)
  have hv1 : 0 ≤ (calculateEnvironmentImpact (pollutantsOf aq) (currentOf w)
      (resolveProfile ind)).score :=
    jsRound_nonneg (environmentScoreRaw_nonneg _ _ h25 h10)
  have hv2 : (calculateEnvironmentImpact (pollutantsOf aq) (currentOf w)
      (resolveProfile ind)).score ≤ 100 :=
    jsRound_le_100 (environmentScoreRaw_le _ _)
  have hs1 : 0 ≤ (calculateSocioEconomicImpact (pollutantsOf aq)
      (calculateHealthImpact (pollutantsOf aq) (resolveProfile ind))
      (resolveProfile ind)).score :=
    jsRound_nonneg (socioScoreRaw_nonneg _ _ h25 hh1)
  have hs2 : (calculateSocioEconomicImpact (pollutantsOf aq)
      (calculateHealthImpact (pollutantsOf aq) (resolveProfile ind))
      (resolveProfile ind)).score ≤ 100 :=
    jsRound_le_100 (socioScoreRaw_le _ _)
  have hh1q : (0 : ℚ) ≤
      ((calculateHealthImpact (pollutantsOf aq) (resolveProfile ind)).score : ℚ) := by
    exact_mod_cast hh1
  have hh2q : ((calculateHealthImpact (pollutantsOf aq) (resolveProfile ind)).score : ℚ)
      ≤ 100 := by exact_mod_cast hh2
  have he1q : (0 : ℚ) ≤ ((calculateEcosystemImpact (pollutantsOf aq) (currentOf w)
      (resolveProfile ind)).score : ℚ) := by exact_mod_cast he1
  have he2q : ((calculateEcosystemImpact (pollutantsOf aq) (currentOf w)
      (resolveProfile ind)).score : ℚ) ≤ 100 := by exact_mod_cast he2
  have hv1q : (0 : ℚ) ≤ ((calculateEnvironmentImpact (pollutantsOf aq) (currentOf w)
      (resolveProfile ind)).score : ℚ) := by exact_mod_cast hv1
  have hv2q : ((calculateEnvironmentImpact (pollutantsOf aq) (currentOf w)
      (resolveProfile ind)).score : ℚ) ≤ 100 := by exact_mod_cast hv2
  have hs1q : (0 : ℚ) ≤ ((calculateSocioEconomicImpact (pollutantsOf aq)
      (calculateHealthImpact (pollutantsOf aq) (resolveProfile ind))
      (resolveProfile ind)).score : ℚ) := by exact_mod_cast hs1
  have hs2q : ((calculateSocioEconomicImpact (pollutantsOf aq)
      (calculateHealthImpact (pollutantsOf aq) (resolveProfile ind))
      (resolveProfile ind)).score : ℚ) ≤ 100 := by exact_mod_cast hs2
  unfold overallScoreRaw
  constructor <;> linarith

/-- The published `score` fields of a current-conditions assessment that the
range claim talks about: the four impact scores and the composite score. -/
def ScoresInRange (r : RiskAssessment) : Prop :=
  (0 ≤ r.impacts.humanHealth.score ∧ r.impacts.humanHealth.score ≤ 100) ∧
  (0 ≤ r.impacts.ecosystems.score ∧ r.impacts.ecosystems.score ≤ 100) ∧
  (0 ≤ r.impacts.environment.score ∧ r.impacts.environment.score ≤ 100) ∧
  (0 ≤ r.impacts.socioEconomic.score ∧ r.impacts.socioEconomic.score ≤ 100) ∧
  (0 ≤ r.overallRisk.score ∧ r.overallRisk.score ≤ 100)

/-- C1: for every input with nonnegative pollutant readings, the four
published impact scores and the published overall score of
`calculateOverallRisk` lie in `[0, 100]`. -/
theorem c1_scores_in_range (aq : Option AirQuality) (w : Option Weather)
    (ind : String) (h : PollutantsNonneg (pollutantsOf aq)) :
    ScoresInRange (calculateOverallRisk aq w ind) := by
  obtain ⟨h25, h10, hn2, ho3, hso2⟩ := h
  have hh1 : 0 ≤ (calculateHealthImpact (pollutantsOf aq) (resolveProfile ind)).score :=
    jsRound_nonneg (healthScoreRaw_nonneg _ _ h25 h10 hn2 ho3)
  have hov := overallScoreRaw_bounds aq w ind ⟨h25, h10, hn2, ho3, hso2⟩
  refine ⟨⟨?_, ?_⟩, ⟨?_, ?_⟩, ⟨?_, ?_⟩, ⟨?_, ?_⟩, ⟨?_, ?_⟩⟩
  · exact hh1
  · exact jsRound_le_100 (healthScoreRaw_le _ _)
  · exact jsRound_nonneg (ecosystemScoreRaw_nonneg _ _ hn2 ho3 hso2)
  · exact jsRound_le_100 (ecosystemScoreRaw_le _ _)
  · exact jsRound_nonneg (environmentScoreRaw_nonneg _ _ h25 h10)
  · exact jsRound_le_100 (environmentScoreRaw_le _ _)
  · exact jsRound_nonneg (socioScoreRaw_nonneg _ _ h25 hh1)
  · exact jsRound_le_100 (socioScoreRaw_le _ _)
  · exact jsRound_nonneg hov.1
  · exact jsRound_le_100 hov.2

/-- The concrete scenario-A style pollutant snapshot used as a witness. -/
def scenarioAAirQuality : AirQuality :=
  { pollutants :=
      some { pm25 := some ⟨156⟩, pm10 := some ⟨245⟩, no2 := some ⟨62⟩,
             o3 := some ⟨45⟩, so2 := some ⟨18⟩, co := none }
    aqi := none }

/-- Witness for C1 at a concrete input. -/
theorem c1_scores_in_range_witness :
    PollutantsNonneg (pollutantsOf (some scenarioAAirQuality)) ∧
      ScoresInRange
        (calculateOverallRisk (some scenarioAAirQuality) none "Thermal Power Plant") :=
  ⟨by decide,
    c1_scores_in_range (some scenarioAAirQuality) none "Thermal Power Plant" (by decide)⟩

/-- Air quality with PM2.5 = 12 only: the unrounded health score is
100/3 ≈ 33.33, which classifies as Moderate but rounds down to 33. -/
def pm25TwelveAirQuality : AirQuality :=
  { pollutants :=
      some { pm25 := some ⟨12⟩, pm10 := none, no2 := none, o3 := none,
             so2 := none, co := none }
    aqi := none }

/-- C2 counterexample: a published impact carries score 33 with level
"Moderate", while the claimed classifier sends a score of 33 to "Low" —
the published level is computed from the unrounded score, not from the
published (rounded) score. -/
theorem c2_level_vs_published_score_counterexample :
    (calculateOverallRisk (some pm25TwelveAirQuality) none
        "Generic Industrial Zone").impacts.humanHealth.score = 33 ∧
    (calculateOverallRisk (some pm25TwelveAirQuality) none
        "Generic Industrial Zone").impacts.humanHealth.level = "Moderate" ∧
    getRiskLevel ((33 : ℤ) : ℚ) = "Low" ∧
    (calculateOverallRisk (some pm25TwelveAirQuality) none
        "Generic Industrial Zone").impacts.humanHealth.level ≠
      getRiskLevel (((calculateOverallRisk (some pm25TwelveAirQuality) none
        "Generic Industrial Zone").impacts.humanHealth.score : ℤ) : ℚ) := by
  decide

/-- C2 amended: every published `level` equals the fixed-threshold
classifier applied to the unrounded score from which the accompanying
published `score` is rounded, and the classifier obeys the claimed
boundaries (0→Low, 33→Low, 34→Moderate, 66→Moderate, 67→High). -/
theorem c2_level_from_unrounded_score (aq : Option AirQuality) (w : Option Weather)
    (ind : String) (wf : Option WeatherForecast) :
    ((calculateOverallRisk aq w ind).impacts.humanHealth.level =
        getRiskLevel (healthScoreRaw (pollutantsOf aq) (resolveProfile ind)) ∧
      (calculateOverallRisk aq w ind).impacts.humanHealth.score =
        jsRound (healthScoreRaw (pollutantsOf aq) (resolveProfile ind))) ∧
    ((calculateOverallRisk aq w ind).impacts.ecosystems.level =
        getRiskLevel (ecosystemScoreRaw (pollutantsOf aq) (currentOf w)) ∧
      (calculateOverallRisk aq w ind).impacts.ecosystems.score =
        jsRound (ecosystemScoreRaw (pollutantsOf aq) (currentOf w))) ∧
    ((calculateOverallRisk aq w ind).impacts.environment.level =
        getRiskLevel (environmentScoreRaw (pollutantsOf aq) (currentOf w)) ∧
      (calculateOverallRisk aq w ind).impacts.environment.score =
        jsRound (environmentScoreRaw (pollutantsOf aq) (currentOf w))) ∧
    ((calculateOverallRisk aq w ind).impacts.socioEconomic.level =
        getRiskLevel (socioScoreRaw (pollutantsOf aq)
          (calculateHealthImpact (pollutantsOf aq) (resolveProfile ind)).score) ∧
      (calculateOverallRisk aq w ind).impacts.socioEconomic.score =
        jsRound (socioScoreRaw (pollutantsOf aq)
          (calculateHealthImpact (pollutantsOf aq) (resolveProfile ind)).score)) ∧
    ((calculateOverallRisk aq w ind).overallRisk.level =
        getRiskLevel (overallScoreRaw aq w ind) ∧
      (calculateOverallRisk aq w ind).overallRisk.score =
        jsRound (overallScoreRaw aq w ind)) ∧
    ((generateForecast aq wf ind).overallRisk.level =
        getRiskLevel (forecastAdjustedRaw aq (resolveProfile ind)) ∧
      (generateForecast aq wf ind).overallRisk.score =
        jsRound (forecastAdjustedRaw aq (resolveProfile ind))) ∧
    (getRiskLevel 0 = "Low" ∧ getRiskLevel 33 = "Low" ∧
      getRiskLevel 34 = "Moderate" ∧ getRiskLevel 66 = "Moderate" ∧
      getRiskLevel 67 = "High") :=
  ⟨⟨rfl, rfl⟩, ⟨rfl, rfl⟩, ⟨rfl, rfl⟩, ⟨rfl, rfl⟩, ⟨rfl, rfl⟩, ⟨rfl, rfl⟩, by decide⟩

/-- The `totalWeight` of the health formula as the spec words it. -/
def specHealthTotal (profile : IndustryProfile) : ℚ :=
  (40 + (if profile.primary_pollutants.contains "PM2.5" then (10 : ℚ) else 0)) + 25 +
    (20 + (if profile.primary_pollutants.contains "NOx" then (10 : ℚ) else 0)) + 15

/-- The health-impact score as the spec words it: base weights
`{pm25:40, pm10:25, no2:20, o3:15}`, `+10` on pm25 when the profile's
primary pollutants include `"PM2.5"` and `+10` on no2 when they include
`"NOx"`, weights renormalized to sum to 100 and applied as percentages to
the ratios pm25/15, pm10/45, no2/25, o3/100; result clamped to 100. -/
def specHealthScore (p : Pollutants) (profile : IndustryProfile) : ℚ :=
  min 100
    (pollutantVal p.pm25 / 15 *
        ((40 + (if profile.primary_pollutants.contains "PM2.5" then (10 : ℚ) else 0)) *
          100 / specHealthTotal profile) +
      pollutantVal p.pm10 / 45 * (25 * 100 / specHealthTotal profile) +
      pollutantVal p.no2 / 25 *
        ((20 + (if profile.primary_pollutants.contains "NOx" then (10 : ℚ) else 0)) *
          100 / specHealthTotal profile) +
      pollutantVal p.o3 / 100 * (15 * 100 / specHealthTotal profile))

/-- C3: for every pollutant reading and industry profile the health impact
score computed by the code equals the spec's weighted, renormalized and
clamped formula, and the published integer field is its rounding. -/
theorem c3_health_impact_formula (p : Pollutants) (profile : IndustryProfile) :
    healthScoreRaw p profile = specHealthScore p profile ∧
      (calculateHealthImpact p profile).score = jsRound (specHealthScore p profile) := by
  have h : healthScoreRaw p profile = specHealthScore p profile := by
    unfold healthScoreRaw specHealthScore healthTotalWeight specHealthTotal
    split_ifs <;> congr 1
  refine ⟨h, ?_⟩
  calc (calculateHealthImpact p profile).score
      = jsRound (healthScoreRaw p profile) := rfl
    _ = jsRound (specHealthScore p profile) := by rw [h]

/-- C4 counterexample: `"Thermal Power Plant"` has persistence type
`"Medium to Long"`, which the accumulation classifier never tests, so the
published long-term accumulation level is `"Low"`, not the claimed
`"Moderate"`. -/
theorem c4_medium_to_long_counterexample :
    (resolveProfile "Thermal Power Plant").persistence_type = "Medium to Long" ∧
    (generateForecast none none "Thermal Power Plant").longTerm.chemicalAccumulation.level
      = "Low" ∧
    (generateForecast none none "Thermal Power Plant").longTerm.chemicalAccumulation.level
      ≠ "Moderate" := by
  decide

/-- The long-term accumulation classifier as amended: High for
`"Very Long"`; Moderate for `"Long"`, or for `"Medium"` with AQI above 200;
Low otherwise (so `"Medium to Long"` yields Low). -/
def specChemAccumulationLevel (persistenceType : String) (aqi : ℚ) : String :=
  if persistenceType = "Very Long" then "High"
  else if persistenceType = "Long" ∨ (persistenceType = "Medium" ∧ 200 < aqi) then
    "Moderate"
  else "Low"

/-- C4 amended: for every input the published accumulation level follows the
amended classifier applied to the resolved profile's persistence type and
the defaulted AQI, and `"Medium to Long"` maps to Low. -/
theorem c4_accumulation_level (aq : Option AirQuality) (wf : Option WeatherForecast)
    (ind : String) :
    (generateForecast aq wf ind).longTerm.chemicalAccumulation.level =
      specChemAccumulationLevel (resolveProfile ind).persistence_type
        (jsOrNum (aqiValOf aq) 150) ∧
    specChemAccumulationLevel "Medium to Long" 300 = "Low" :=
  ⟨rfl, by decide⟩

/-- An air-quality record that carries an explicit AQI value of `0`. -/
def zeroAqiAirQuality : AirQuality :=
  { pollutants := none, aqi := some { value := some 0, category := none } }

/-- C5 counterexample: with a carried AQI value of `0` the claim's formula
gives `rawScore = round(min(100, 0/3)) = 0`, but the code's truthiness test
treats the `0` as absent and publishes the default `50`. -/
theorem c5_zero_aqi_counterexample :
    aqiValOf (some zeroAqiAirQuality) = some 0 ∧
    (generateForecast (some zeroAqiAirQuality) none
        "Generic Industrial Zone").overallRisk.rawScore = 50 ∧
    jsRound (min 100 ((0 : ℚ) / 3)) = 0 ∧
    (generateForecast (some zeroAqiAirQuality) none
        "Generic Industrial Zone").overallRisk.rawScore ≠
      jsRound (min 100 ((0 : ℚ) / 3)) := by
  decide

/-- The forecast base score as amended: `min(100, v/3)` for a carried
nonzero AQI value `v`; the fixed default `50` when the AQI is absent or `0`. -/
def specForecastBase (aqiValue : Option ℚ) : ℚ :=
  match aqiValue with
  | some v => if v = 0 then 50 else min 100 (v / 3)
  | none => 50

/-- C5 amended: the published forecast `rawScore` is the rounding of the
amended base score, `score` is the rounding of `min(100, base × multiplier)`
with the multiplier defaulting to 1, and `level` is the classifier applied
to the adjusted unrounded score. -/
theorem c5_forecast_scores (aq : Option AirQuality) (wf : Option WeatherForecast)
    (ind : String) :
    (generateForecast aq wf ind).overallRisk.rawScore =
      jsRound (specForecastBase (aqiValOf aq)) ∧
    (generateForecast aq wf ind).overallRisk.score =
      jsRound (min 100 (specForecastBase (aqiValOf aq) *
        jsOrNum (resolveProfile ind).vulnerabilityMultiplier 1)) ∧
    (generateForecast aq wf ind).overallRisk.multiplier =
      jsOrNum (resolveProfile ind).vulnerabilityMultiplier 1 ∧
    (generateForecast aq wf ind).overallRisk.level =
      getRiskLevel (min 100 (specForecastBase (aqiValOf aq) *
        jsOrNum (resolveProfile ind).vulnerabilityMultiplier 1)) :=
  ⟨rfl, rfl, rfl, rfl⟩

/-- PM2.5 = 15 with an explicitly supplied AQI value of `0`. -/
def zeroAqiWithPm25AirQuality : AirQuality :=
  { pollutants :=
      some { pm25 := some ⟨15⟩, pm10 := none, no2 := none, o3 := none,
             so2 := none, co := none }
    aqi := none }

/-- C6 counterexample: a supplied AQI value of `0` is falsy, so the
published `aqi` is the derived `round(overallScore × 5) = 157`, not the
supplied `0`. -/
theorem c6_supplied_zero_aqi_counterexample :
    aqiValOf (some { zeroAqiWithPm25AirQuality with
        aqi := some { value := some 0, category := none } }) = some 0 ∧
    (calculateOverallRisk (some { zeroAqiWithPm25AirQuality with
        aqi := some { value := some 0, category := none } }) none
        "Generic Industrial Zone").overallRisk.aqi = 157 ∧
    (calculateOverallRisk (some { zeroAqiWithPm25AirQuality with
        aqi := some { value := some 0, category := none } }) none
        "Generic Industrial Zone").overallRisk.aqi ≠ 0 := by
  decide

/-- The published AQI choice as amended: the supplied AQI value when it is
nonzero; a supplied `0` — like an absent AQI — falls back to the derived
`round(overallScore × 5)`. -/
def specAqiChoice (suppliedAqi : Option ℚ) (overallScore : ℚ) : ℚ :=
  match suppliedAqi with
  | some v => if v = 0 then ((jsRound (overallScore * 5) : ℤ) : ℚ) else v
  | none => ((jsRound (overallScore * 5) : ℤ) : ℚ)

/-- C6 amended: for every input the published `overallRisk.aqi` follows the
amended choice rule, and a nonzero supplied AQI passes through unchanged. -/
theorem c6_aqi_choice (aq : Option AirQuality) (w : Option Weather) (ind : String) :
    (calculateOverallRisk aq w ind).overallRisk.aqi =
      specAqiChoice (aqiValOf aq) (overallScoreRaw aq w ind) ∧
    specAqiChoice (some 417) 31 = 417 := by
  refine ⟨?_, by decide⟩
  rw [cor_overall_aqi]
  unfold specAqiChoice jsOrNum
  cases aqiValOf aq <;> rfl

/-- Weather at 35 °C, above the claimed 30 °C volatilization threshold. -/
def hotWeather : Weather :=
  { current :=
      some { temperature := some 35, humidity := none, windSpeed := none,
             visibility := none } }

/-- C7 (code-bug evidence): `"Textile & Dyeing"` lists `"VOCs"` and the
temperature is 35 °C, yet the published concerns are only the routine
placeholder; indeed the VOC volatilization concern is unreachable for every
input because `identifyPrimaryConcerns` reads `weather.current` on the
already-unwrapped snapshot. -/
theorem c7_voc_concern_never_fires :
    (resolveProfile "Textile & Dyeing").primary_pollutants.contains "VOCs" = true ∧
    (calculateOverallRisk none (some hotWeather) "Textile & Dyeing").primaryConcerns =
      ["Routine environmental monitoring active."] ∧
    (∀ (aq : Option AirQuality) (w : Option Weather) (ind : String),
      "High temperatures may increase VOC volatilization risk." ∉
        (calculateOverallRisk aq w ind).primaryConcerns) := by
  refine ⟨by decide, by decide, ?_⟩
  intro aq w ind
  show "High temperatures may increase VOC volatilization risk." ∉
    identifyPrimaryConcerns (pollutantsOf aq) (currentOf w) (resolveProfile ind)
  simp only [identifyPrimaryConcerns, Bool.and_false, if_false, List.append_nil,
    withFallback]
  split_ifs <;> simp_all

/-- C8: `primaryConcerns` and `earlyWarnings` are never empty, and on a
quiet input where no specific rule fires each collapses to its single
placeholder entry. -/
theorem c8_concerns_and_warnings_nonempty :
    (∀ (aq : Option AirQuality) (w : Option Weather) (ind : String),
      (calculateOverallRisk aq w ind).primaryConcerns ≠ []) ∧
    (∀ (aq : Option AirQuality) (wf : Option WeatherForecast) (ind : String),
      (generateForecast aq wf ind).earlyWarnings ≠ []) ∧
    (calculateOverallRisk none none "Generic Industrial Zone").primaryConcerns =
      ["Routine environmental monitoring active."] ∧
    (generateForecast none none "Construction").earlyWarnings =
      [{ type := "status", severity := "normal"
         message := "Conditions within manageable limits.", icon := "✓" }] := by
  refine ⟨?_, ?_, by decide, by decide⟩
  · intro aq w ind
    exact withFallback_ne_nil _ _
  · intro aq wf ind
    exact withFallback_ne_nil _ _

/-- C9 (code-bug evidence): JS bracket lookup consults the prototype chain,
so the reachable industry name `"constructor"` is not an own key yet
resolves to a truthy inherited non-profile; the `||` fallback is skipped and
profile resolution throws instead of yielding the generic profile. Own keys
do resolve to their own profile, and names that are neither own keys nor
inherited properties do fall back to exactly the generic profile. -/
theorem c9_prototype_key_breaks_fallback :
    lookupProfile "constructor" = none ∧
    objectPrototypeKeys.contains "constructor" = true ∧
    bracketLookup "constructor" = BracketValue.inheritedNonProfile ∧
    resolveProfileJs "constructor" =
      Except.error "TypeError: profile.primary_pollutants is undefined" ∧
    (∀ p : IndustryProfile, resolveProfileJs "constructor" ≠ Except.ok p) ∧
    (∀ (name : String) (p : IndustryProfile), lookupProfile name = some p →
      resolveProfileJs name = Except.ok p) ∧
    (∀ name : String, lookupProfile name = none →
      objectPrototypeKeys.contains name = false →
      resolveProfileJs name = Except.ok genericIndustrialZone) := by
  refine ⟨by decide, by decide, by decide, rfl, ?_, ?_, ?_⟩
  · intro p hp
    rw [show resolveProfileJs "constructor" =
        Except.error "TypeError: profile.primary_pollutants is undefined" from rfl] at hp
    exact Except.noConfusion hp
  · intro name p hp
    unfold resolveProfileJs bracketLookup
    rw [hp]
  · intro name hn hproto
    unfold resolveProfileJs bracketLookup
    rw [hn, hproto]
    simp

/-- C10: TTL cache round trip — after `set key value ttl` at time `now`,
a `get key` at any time not past `now + ttl` returns the stored value, a
`get key` strictly after `now + ttl` returns nothing, and the eviction a
`get` performs never touches another key's entry. -/
theorem c10_cache_ttl_roundtrip {α : Type} (c : Cache α) (key : String) (value : α)
    (ttl now : ℤ) (_httl : 0 < ttl) :
    (∀ t : ℤ, t ≤ now + ttl →
      (cacheGet (cacheSet c key value now ttl) key t).1 = some value) ∧
    (∀ t : ℤ, now + ttl < t →
      (cacheGet (cacheSet c key value now ttl) key t).1 = none) ∧
    (∀ (k : String) (t : ℤ), k ≠ key →
      (cacheGet (cacheSet c key value now ttl) key t).2 k =
        cacheSet c key value now ttl k) := by
  refine ⟨?_, ?_, ?_⟩
  · intro t ht
    simp [cacheGet, cacheSet, not_lt.mpr ht]
  · intro t ht
    simp [cacheGet, cacheSet, ht]
  · intro k t hk
    simp only [cacheGet, cacheSet, if_pos]
    split <;> simp [cacheSet, hk]

/-- Witness for C10 on a concrete cache: key `"k"`, value `7`, ttl `100`,
set at time `0`, probed at times `100` and `101`. -/
theorem c10_cache_ttl_roundtrip_witness :
    ((0 : ℤ) < 100) ∧
    (cacheGet (cacheSet (emptyCache ℕ) "k" 7 0 100) "k" 100).1 = some 7 ∧
    (cacheGet (cacheSet (emptyCache ℕ) "k" 7 0 100) "k" 101).1 = none ∧
    (cacheGet (cacheSet (emptyCache ℕ) "k" 7 0 100) "k" 101).2 "other" =
      cacheSet (emptyCache ℕ) "k" 7 0 100 "other" :=
  ⟨by decide,
   (c10_cache_ttl_roundtrip (emptyCache ℕ) "k" 7 100 0 (by decide)).1 100 (by decide),
   (c10_cache_ttl_roundtrip (emptyCache ℕ) "k" 7 100 0 (by decide)).2.1 101 (by decide),
   (c10_cache_ttl_roundtrip (emptyCache ℕ) "k" 7 100 0 (by decide)).2.2 "other" 101
     (by decide)⟩

end EcoSphere
